import Mathlib

/-!
Verification of the RTSP camera viewer's stream relay and diagnostics core.

Strings are modelled as `List Char` (`Str`).  Each definition below is a
shallow embedding of the corresponding TypeScript function; JavaScript
regular expressions are embedded through their deterministic backtracking
behaviour on the concrete patterns the code uses (for each pattern in the
source, greedy character classes admit no useful backtracking, so maximal
munch reproduces the engine exactly; optional groups try the "taken"
alternative first and fall back to "skipped").
-/

abbrev Str := List Char

/-- Greedy character-class matching: longest prefix of the list whose
characters satisfy `p`, together with the remainder. -/
def spanB (p : Char → Bool) : List Char → List Char × List Char
  | [] => ([], [])
  | c :: cs => if p c then (c :: (spanB p cs).1, (spanB p cs).2) else ([], c :: cs)

/-- JavaScript `\w`: ASCII letters, digits and underscore. -/
def isWordChar (c : Char) : Bool := c.isAlphanum || c == '_'

/-- JavaScript `.` (no `s` flag): any character except a line terminator. -/
def dotChar (c : Char) : Bool :=
  !(c == '\n') && !(c == '\r') && !(c == '\u2028') && !(c == '\u2029')

/-- The suffix of a string strictly after its first '@' (the whole tail is
dropped when no '@' occurs). -/
def afterFirstAt : List Char → List Char
  | [] => []
  | c :: cs => if c == '@' then cs else afterFirstAt cs

/-- Does `pat` occur at the head of `s`? -/
def matchesAt : List Char → List Char → Bool
  | [], _ => true
  | _ :: _, [] => false
  | p :: ps, c :: cs => p == c && matchesAt ps cs

/-- Substring test: does `pat` occur anywhere inside `s`? -/
def containsSub (pat : List Char) : List Char → Bool
  | [] => pat.isEmpty
  | c :: cs => matchesAt pat (c :: cs) || containsSub pat cs

/-- JavaScript `split(sep)` on a single-character separator (keeps empty
pieces, in order). -/
def splitOnChar (sep : Char) : List Char → List (List Char)
  | [] => [[]]
  | c :: cs =>
    match splitOnChar sep cs with
    | [] => [[c]]
    | h :: t => if c == sep then [] :: h :: t else (c :: h) :: t

/-! ## URL codec (`client/src/lib/camera-utils.ts`) -/

/-- One attempt of the pattern `(\w+):([^@]+)@` at the current position, as
used by `maskRtspUrl`'s `url.replace(/(\w+):([^@]+)@/, "$1:******@")`.
Returns the first capture group and the remainder after the match. -/
def matchHere (s : List Char) : Option (List Char × List Char) :=
  let w := (spanB isWordChar s).1
  let r1 := (spanB isWordChar s).2
  if w.isEmpty then none else
    match r1 with
    | ':' :: r2 =>
      let m := (spanB (fun c => !(c == '@')) r2).1
      let r3 := (spanB (fun c => !(c == '@')) r2).2
      if m.isEmpty then none else
        match r3 with
        | '@' :: r4 => some (w, r4)
        | _ => none
    | _ => none

/-- `maskRtspUrl`: replace the leftmost match of `(\w+):([^@]+)@` with
`"$1:******@"` (the whole string is returned unchanged when the pattern
does not occur). -/
def maskRtspUrl : List Char → List Char
  | [] => []
  | c :: cs =>
    match matchHere (c :: cs) with
    | some (w, rest) => w ++ (":******@".data ++ rest)
    | none => c :: maskRtspUrl cs

/-- Raw capture groups of `parseRtspUrl`'s regex
`rtsp:\/\/(?:([^:]+):([^@]+)@)?([^:\/]+)(?::(\d+))?(?:\/(.*))?`. -/
structure RawMatch where
  username : Option (List Char)
  password : Option (List Char)
  hostG : List Char
  portG : Option (List Char)
  pathG : Option (List Char)
deriving DecidableEq

/-- The trailing `(?:\/(.*))?` group: capture after a '/', greedy up to a
line terminator; absent otherwise. -/
def pathCapture (r : List Char) : Option (List Char) :=
  match r with
  | '/' :: rest => some (rest.takeWhile dotChar)
  | _ => none

/-- `([^:\/]+)(?::(\d+))?(?:\/(.*))?`: host, optional port digits, optional
path.  The host class is greedy; the optional groups are attempted and
skipped on failure (they never force the host to backtrack because any
shorter host would be followed by a host character, which neither `:` nor
`/` can match, and the match may simply end there instead). -/
def hostPortPath (t : List Char) : Option (List Char × Option (List Char) × Option (List Char)) :=
  let h := (spanB (fun c => !(c == ':') && !(c == '/')) t).1
  let r := (spanB (fun c => !(c == ':') && !(c == '/')) t).2
  if h.isEmpty then none else
    match r with
    | ':' :: r2 =>
      let d := (spanB Char.isDigit r2).1
      let r3 := (spanB Char.isDigit r2).2
      if d.isEmpty then some (h, none, pathCapture r)
      else some (h, some d, pathCapture r3)
    | _ => some (h, none, pathCapture r)

/-- The optional credential group `(?:([^:]+):([^@]+)@)?`: username up to
the first ':', password from there up to the first '@'.  Both classes are
greedy and admit no other split (neither class can cross its delimiter). -/
def credAttempt (t : List Char) : Option (List Char × List Char × List Char) :=
  let a := (spanB (fun c => !(c == ':')) t).1
  let r := (spanB (fun c => !(c == ':')) t).2
  if a.isEmpty then none else
    match r with
    | ':' :: r1 =>
      let b := (spanB (fun c => !(c == '@')) r1).1
      let r2 := (spanB (fun c => !(c == '@')) r1).2
      if b.isEmpty then none else
        match r2 with
        | '@' :: r3 => some (a, b, r3)
        | _ => none
    | _ => none

/-- Body of the parse regex after the literal `rtsp://`: try the credential
group first (the engine prefers the optional group taken); if the rest of
the pattern then fails, backtrack to the group being skipped. -/
def matchBody (t : List Char) : Option RawMatch :=
  match credAttempt t with
  | some (a, b, r3) =>
    match hostPortPath r3 with
    | some (h, p, pa) => some ⟨some a, some b, h, p, pa⟩
    | none =>
      match hostPortPath t with
      | some (h, p, pa) => some ⟨none, none, h, p, pa⟩
      | none => none
  | none =>
    match hostPortPath t with
    | some (h, p, pa) => some ⟨none, none, h, p, pa⟩
    | none => none

/-- Attempt the whole (unanchored) parse regex at the current position: it
can only succeed where the literal `rtsp://` occurs. -/
def tryRtspAt : List Char → Option RawMatch
  | 'r' :: 't' :: 's' :: 'p' :: ':' :: '/' :: '/' :: t => matchBody t
  | _ => none

/-- `url.match(regex)`: leftmost match of the unanchored parse regex. -/
def rtspScan : List Char → Option RawMatch
  | [] => none
  | c :: cs =>
    match tryRtspAt (c :: cs) with
    | some m => some m
    | none => rtspScan cs

/-- Result record of `parseRtspUrl` (all fields `undefined` when the regex
does not match; `host` duplicates `ip`; `port` defaults to `"554"`). -/
structure ParsedRtsp where
  username : Option (List Char)
  password : Option (List Char)
  ip : Option (List Char)
  host : Option (List Char)
  port : Option (List Char)
  path : Option (List Char)
deriving DecidableEq

/-- `parseRtspUrl` from `camera-utils.ts`. -/
def parseRtspUrl (url : List Char) : ParsedRtsp :=
  match rtspScan url with
  | none => ⟨none, none, none, none, none, none⟩
  | some m => ⟨m.username, m.password, some m.hostG, some m.hostG,
               some (m.portG.getD "554".data), m.pathG⟩

/-- `$` of the anchored validation regex after an optional `\/.*` step. -/
def validPathEnd (r : List Char) : Bool :=
  match r with
  | [] => true
  | '/' :: rest => rest.all dotChar
  | _ => false

/-- `(?::\d+)?(?:\/.*)?$` of the validation regex. -/
def validHostTail (r : List Char) : Bool :=
  match r with
  | [] => true
  | ':' :: r2 =>
    let d := (spanB Char.isDigit r2).1
    let r3 := (spanB Char.isDigit r2).2
    !d.isEmpty && validPathEnd r3
  | '/' :: rest => rest.all dotChar
  | _ => false

/-- `[^:\/]+(?::\d+)?(?:\/.*)?$` of the validation regex. -/
def validHost (c : List Char) : Bool :=
  let h := (spanB (fun x => !(x == ':') && !(x == '/')) c).1
  let r := (spanB (fun x => !(x == ':') && !(x == '/')) c).2
  !h.isEmpty && validHostTail r

/-- Body of the validation regex after `rtsp://`: with the credential group
taken, or with it skipped (a backtracking test succeeds iff either path
does). -/
def validBody (t : List Char) : Bool :=
  (let a := (spanB (fun c => !(c == ':')) t).1
   let r := (spanB (fun c => !(c == ':')) t).2
   !a.isEmpty &&
     (match r with
      | ':' :: r1 =>
        let b := (spanB (fun c => !(c == '@')) r1).1
        let r2 := (spanB (fun c => !(c == '@')) r1).2
        !b.isEmpty &&
          (match r2 with
           | '@' :: r3 => validHost r3
           | _ => false)
      | _ => false))
  || validHost t

/-- `isValidRtspUrl`: the anchored regex
`^rtsp:\/\/(?:[^:]+:[^@]+@)?[^:\/]+(?::\d+)?(?:\/.*)?$`. -/
def isValidRtspUrl (u : List Char) : Bool :=
  match u with
  | 'r' :: 't' :: 's' :: 'p' :: ':' :: '/' :: '/' :: t => validBody t
  | _ => false

/-! ## Network diagnostics (`server/lib/network-diagnostics.ts`) -/

/-- `NetworkDiagnostics.server` sub-record. -/
structure ServerInfo where
  ipAddress : Str
  isConnectedToInternet : Bool
deriving DecidableEq

/-- `NetworkDiagnostics.camera` sub-record. -/
structure CameraInfo where
  isReachable : Bool
  isPortOpen : Bool
  pingResult : Option Str
  tracerouteResult : Option Str
  error : Option Str
deriving DecidableEq

/-- The `NetworkDiagnostics` result; `status` is one of the literal strings
`"success"`, `"partial"`, `"failure"`. -/
structure NetworkDiagnostics where
  status : Str
  server : ServerInfo
  camera : CameraInfo
deriving DecidableEq

/-- `runNetworkDiagnostics`, with the awaited probe results as parameters:
`serverIp` is `getIpAddress()`, `pingSuccess`/`pingOutput` the result of
`pingHost`, `portCheck` the result of `isPortOpen`, `traceResults` the
traceroute output and `internetCheck` the internet-liveness check.  The
body after the join is a pure composition, embedded verbatim. -/
def runNetworkDiagnostics (serverIp : Str) (pingSuccess : Bool) (pingOutput : Str)
    (portCheck : Bool) (traceResults : Str) (internetCheck : Bool) : NetworkDiagnostics :=
  { status :=
      if pingSuccess && portCheck then "success".data
      else if pingSuccess || portCheck then "partial".data
      else "failure".data
    server := ⟨serverIp, internetCheck⟩
    camera :=
      ⟨pingSuccess, portCheck, some pingOutput, some traceResults,
       if !pingSuccess then some "Camera IP is not reachable".data
       else if !portCheck then some "RTSP port is closed or blocked".data
       else none⟩ }

/-- `getNetworkFromIp`: first three dotted octets, or `""` when the address
does not split into exactly four parts. -/
def getNetworkFromIp (ip : Str) : Str :=
  match splitOnChar '.' ip with
  | [a, b, c, _] => a ++ ('.' :: (b ++ ('.' :: c)))
  | _ => []

/-- `areOnSameNetwork`. -/
def areOnSameNetwork (ip1 ip2 : Str) : Bool :=
  getNetworkFromIp ip1 == getNetworkFromIp ip2

/-- Suggestion emitted on a server/camera subnet mismatch. -/
def msgDifferentNetworks : Str :=
  "Your camera and server are on different networks. Consider connecting them to the same network.".data

/-- Suggestion emitted when the server has no internet connectivity. -/
def msgNoInternet : Str :=
  "Your server does not have internet connectivity. This may limit some functionality.".data

/-- Suggestion emitted when the camera is unreachable. -/
def msgUnreachable : Str :=
  "Cannot reach your camera. Verify it is powered on and connected to the network.".data

/-- Suggestion emitted when the camera answers ping but the RTSP port is closed. -/
def msgPortClosed : Str :=
  "Your camera is reachable but the RTSP port (554) is closed. Check if your camera has RTSP enabled.".data

/-- Fallback suggestion emitted when no rule fired yet the status is not success. -/
def msgFallback : Str :=
  "All basic checks passed but connection still fails. Your camera may require specific authentication or have non-standard RTSP paths.".data

/-- `getConnectionSuggestions`: the rule chain, in source order, each rule
appending its message; the fallback fires only when the list is still
empty and the status is not `"success"`. -/
def getConnectionSuggestions (diagnostics : NetworkDiagnostics) (cameraIp : Str) : List Str :=
  let serverIp := diagnostics.server.ipAddress
  let s1 : List Str :=
    if areOnSameNetwork serverIp cameraIp then [] else [msgDifferentNetworks]
  let s2 := if diagnostics.server.isConnectedToInternet then s1 else s1 ++ [msgNoInternet]
  let s3 := if diagnostics.camera.isReachable then s2 else s2 ++ [msgUnreachable]
  let s4 := if diagnostics.camera.isReachable && !diagnostics.camera.isPortOpen
            then s3 ++ [msgPortClosed] else s3
  if s4.isEmpty && !(diagnostics.status == "success".data)
  then s4 ++ [msgFallback] else s4

/-! ## Port probe (`isPortOpen` in `network-diagnostics.ts`)

`isPortOpen` wraps a socket in a promise and installs three handlers; we
embed the handlers as a step function over the socket's event sequence.
The state records the `resolved` flag, whether `socket.destroy()` has been
called, and the values passed to `resolve` (in order). -/

/-- A socket event delivered to one of the three installed handlers. -/
inductive SockEvent
  | connect
  | error
  | timeout
deriving DecidableEq

/-- Handler-visible state of one `isPortOpen` invocation. -/
structure ProbeState where
  resolved : Bool
  destroyed : Bool
  resolutions : List Bool
deriving DecidableEq

/-- State before any event: `resolved = false`, socket live, nothing resolved. -/
def probeInit : ProbeState := ⟨false, false, []⟩

/-- The three handlers of `isPortOpen`, verbatim: `connect` sets `resolved`,
destroys the socket and resolves `true` (unguarded); `error` is guarded by
`resolved` and resolves `false` without destroying the socket; `timeout` is
guarded, destroys the socket and resolves `false`. -/
def isPortOpenStep (st : ProbeState) : SockEvent → ProbeState
  | .connect => ⟨true, true, st.resolutions ++ [true]⟩
  | .error => if st.resolved then st else ⟨true, st.destroyed, st.resolutions ++ [false]⟩
  | .timeout => if st.resolved then st else ⟨true, true, st.resolutions ++ [false]⟩

/-- Run one `isPortOpen` invocation over a socket event sequence. -/
def isPortOpenRun (evs : List SockEvent) : ProbeState :=
  evs.foldl isPortOpenStep probeInit

/-- Admissible socket event sequences: `connect` and `error` are mutually
exclusive outcomes of one connection attempt, and a `connect` or first
`timeout` destroys the socket (the handlers call `socket.destroy()`), after
which no further events are delivered.  After an `error`, further `error`
or `timeout` events may still be delivered but never a `connect`. -/
def validEvents : List SockEvent → Bool
  | [] => true
  | .connect :: rest => rest.isEmpty
  | .timeout :: rest => rest.isEmpty
  | .error :: rest => rest.all (fun e => !(e == SockEvent.connect))

/-! ## Stream registry (`setupRtspStream` / `disconnectStream`)

The relay's mutable module state (`activeStreams`, `streamPorts`) and the
side effects of one Node.js event-loop turn are embedded as a state record.
`setupRtspStream` contains exactly one suspension point between its
`activeStreams.has` check and its `activeStreams.set` insertion — the
`await` on `server.listen` — so it is split into two atomic segments;
concurrent invocations interleave only at that boundary, which is Node's
actual execution model.  `Buffer.from(url).toString('base64')` is an
injective derivation of the registry key from the URL and is modelled as
the identity on keys. -/

/-- Registry key of a source URL (base64 in the source, an injective
encoding that only relabels keys; modelled as the identity). -/
def streamId (u : Str) : Str := u

/-- `Map.get`: value at a key, if present. -/
def mapGet : List (Str × α) → Str → Option α
  | [], _ => none
  | (k', v) :: rest, k => if k' = k then some v else mapGet rest k

/-- `Map.set`: replace the value at an existing key in place, else append. -/
def mapSet : List (Str × α) → Str → α → List (Str × α)
  | [], k, v => [(k, v)]
  | (k', v') :: rest, k, v =>
    if k' = k then (k, v) :: rest else (k', v') :: mapSet rest k v

/-- `Map.delete`: remove the entry at a key. -/
def mapDelete : List (Str × α) → Str → List (Str × α)
  | [], _ => []
  | (k', v') :: rest, k => if k' = k then rest else (k', v') :: mapDelete rest k

/-- A `StreamInfo` entry of `activeStreams`: `inst` identifies the ffmpeg
process and the ws/http servers created by one stream instance, `clients`
is the fan-out membership set, and `timerArmed` records whether
`lastClientDisconnectTimeout` holds a pending timer. -/
structure StreamInfoM where
  inst : Nat
  clients : List Nat
  timerArmed : Bool
deriving DecidableEq

/-- Module state of the relay plus the observable side effects of a run:
processes spawned and killed, servers closed, client connections closed. -/
structure RelayState where
  activeStreams : List (Str × StreamInfoM)
  streamPorts : List (Str × Nat)
  nextInst : Nat
  spawned : List Nat
  killed : List Nat
  closedWs : List Nat
  closedHttp : List Nat
  closedClients : List Nat
deriving DecidableEq

/-- Fresh module state. -/
def initRelay : RelayState := ⟨[], [], 0, [], [], [], [], []⟩

/-- Outcome of the first segment of `setupRtspStream`. -/
inductive SetupResult
  | existing (port : Nat)
  | proceed
deriving DecidableEq

/-- First synchronous segment of `setupRtspStream`: the
`activeStreams.has(streamId)` check.  On a hit it clears any pending
disconnect timer and returns the stored port (`getPortForStream`, `0` when
absent); otherwise it creates the http/ws servers and suspends on
`await server.listen(port)`. -/
def setupPhase1 (u : Str) (st : RelayState) : RelayState × SetupResult :=
  let sid := streamId u
  match mapGet st.activeStreams sid with
  | some info =>
    ({ st with activeStreams := mapSet st.activeStreams sid { info with timerArmed := false } },
     .existing ((mapGet st.streamPorts sid).getD 0))
  | none => (st, .proceed)

/-- Second segment, after the listen `await` resolves: spawn the ffmpeg
process, register the new `StreamInfo` under the stream id, store the port
mapping and return the port of the ws endpoint. -/
def setupPhase2 (u : Str) (port : Nat) (st : RelayState) : RelayState × Nat :=
  let sid := streamId u
  let inst := st.nextInst
  ({ st with
      nextInst := inst + 1
      spawned := st.spawned ++ [inst]
      activeStreams := mapSet st.activeStreams sid ⟨inst, [], false⟩
      streamPorts := mapSet st.streamPorts sid port }, port)

/-- `setupRtspStream` run without interleaving: phase 1 followed, on the
`proceed` path, by phase 2.  `port` stands for the randomly drawn listen
port. -/
def setupRtspStream (u : Str) (port : Nat) (st : RelayState) : RelayState × Nat :=
  match setupPhase1 u st with
  | (st', .existing p) => (st', p)
  | (st', .proceed) => setupPhase2 u port st'

/-- `disconnectStream`: on a registered stream, kill the ffmpeg process,
close every client connection, close the ws server, delete the registry
entry and clear the port mapping; a no-op otherwise. -/
def disconnectStream (u : Str) (st : RelayState) : RelayState :=
  let sid := streamId u
  match mapGet st.activeStreams sid with
  | none => st
  | some info =>
    { st with
        killed := st.killed ++ [info.inst]
        closedClients := st.closedClients ++ info.clients
        closedWs := st.closedWs ++ [info.inst]
        activeStreams := mapDelete st.activeStreams sid
        streamPorts := mapDelete st.streamPorts sid }

/-- The `ffmpegProcess.on('close', ...)` handler: closes the ws server and
http server captured in its closure (`inst`) and deletes the registry
entry.  It touches neither the clients nor the port mapping. -/
def onFfmpegClose (u : Str) (inst : Nat) (st : RelayState) : RelayState :=
  { st with
      closedWs := st.closedWs ++ [inst]
      closedHttp := st.closedHttp ++ [inst]
      activeStreams := mapDelete st.activeStreams (streamId u) }

/-- The `wsServer.on('connection', ...)` handler: adds the client to the
stream's set.  It does not touch the disconnect timer. -/
def onWsConnection (u : Str) (cid : Nat) (st : RelayState) : RelayState :=
  match mapGet st.activeStreams (streamId u) with
  | none => st
  | some info =>
    { st with activeStreams :=
        mapSet st.activeStreams (streamId u) { info with clients := info.clients ++ [cid] } }

/-- The per-client `ws.on('close', ...)` handler: removes the client; when
the set becomes empty, stores a 60-second disconnect timer on the entry. -/
def onWsClientClose (u : Str) (cid : Nat) (st : RelayState) : RelayState :=
  match mapGet st.activeStreams (streamId u) with
  | none => st
  | some info =>
    let cl := info.clients.filter (fun x => !(x == cid))
    { st with activeStreams :=
        (mapSet st.activeStreams (streamId u)
          { info with clients := cl,
                      timerArmed := if cl.isEmpty then true else info.timerArmed }) }

/-- The disconnect timer's callback: it invokes `disconnectStream(rtspUrl)`
unconditionally — membership is not re-checked when the timer fires. -/
def fireIdleTimeout (u : Str) (st : RelayState) : RelayState :=
  disconnectStream u st

/-! ## Theorems -/

/-- C4: status of `runNetworkDiagnostics` is `"success"` iff ping succeeded
and the RTSP port is open, `"partial"` iff exactly one of the two
succeeded, and `"failure"` iff neither succeeded. -/
theorem runNetworkDiagnostics_status_cases
    (serverIp : Str) (pingSuccess : Bool) (pingOutput : Str)
    (portCheck : Bool) (traceResults : Str) (internetCheck : Bool) :
    ((runNetworkDiagnostics serverIp pingSuccess pingOutput portCheck traceResults internetCheck).status
        = "success".data ↔ pingSuccess = true ∧ portCheck = true)
    ∧ ((runNetworkDiagnostics serverIp pingSuccess pingOutput portCheck traceResults internetCheck).status
        = "partial".data ↔
        ((pingSuccess = true ∧ portCheck = false) ∨ (pingSuccess = false ∧ portCheck = true)))
    ∧ ((runNetworkDiagnostics serverIp pingSuccess pingOutput portCheck traceResults internetCheck).status
        = "failure".data ↔ pingSuccess = false ∧ portCheck = false) := by
  cases pingSuccess <;> cases portCheck <;> simp [runNetworkDiagnostics]

/-- The suggestion list always equals the concatenation, in fixed rule
order, of the per-rule singleton lists, with the fallback governed by the
conjunction "no earlier rule fired and status is not success". -/
theorem getConnectionSuggestions_canonical (d : NetworkDiagnostics) (cameraIp : Str) :
    getConnectionSuggestions d cameraIp =
      (if areOnSameNetwork d.server.ipAddress cameraIp then [] else [msgDifferentNetworks])
      ++ (if d.server.isConnectedToInternet then [] else [msgNoInternet])
      ++ (if d.camera.isReachable then [] else [msgUnreachable])
      ++ (if d.camera.isReachable && !d.camera.isPortOpen then [msgPortClosed] else [])
      ++ (if areOnSameNetwork d.server.ipAddress cameraIp
            && d.server.isConnectedToInternet
            && d.camera.isReachable
            && d.camera.isPortOpen
            && !(d.status == "success".data)
          then [msgFallback] else []) := by
  rcases d with ⟨status, ⟨sip, inet⟩, ⟨reach, port, pr, tr, er⟩⟩
  cases h : areOnSameNetwork sip cameraIp <;> cases inet <;> cases reach <;> cases port <;>
    simp [getConnectionSuggestions, h]

/-- C8: `getConnectionSuggestions` evaluates its rules in fixed order —
subnet mismatch, no internet, camera unreachable, reachable-but-port-closed,
fallback — as independent cumulative rules, the fallback firing only when
none of the others did and the status is not success; for a camera at
192.168.18.10 reachable by ping with port 554 closed and a server on the
same /24, the result contains the port-closed suggestion and not the
subnet-mismatch suggestion. -/
theorem getConnectionSuggestions_rule_chain :
    (∀ (d : NetworkDiagnostics) (cameraIp : Str),
      getConnectionSuggestions d cameraIp =
        (if areOnSameNetwork d.server.ipAddress cameraIp then [] else [msgDifferentNetworks])
        ++ (if d.server.isConnectedToInternet then [] else [msgNoInternet])
        ++ (if d.camera.isReachable then [] else [msgUnreachable])
        ++ (if d.camera.isReachable && !d.camera.isPortOpen then [msgPortClosed] else [])
        ++ (if areOnSameNetwork d.server.ipAddress cameraIp
              && d.server.isConnectedToInternet
              && d.camera.isReachable
              && d.camera.isPortOpen
              && !(d.status == "success".data)
            then [msgFallback] else []))
    ∧ (msgPortClosed ∈ getConnectionSuggestions
        (runNetworkDiagnostics "192.168.18.5".data true [] false [] true) "192.168.18.10".data)
    ∧ (msgDifferentNetworks ∉ getConnectionSuggestions
        (runNetworkDiagnostics "192.168.18.5".data true [] false [] true) "192.168.18.10".data)
    ∧ (runNetworkDiagnostics "192.168.18.5".data true [] false [] true).status = "partial".data := by
  refine ⟨getConnectionSuggestions_canonical, ?_, ?_, ?_⟩ <;> decide

/-- C10: on any diagnostics record actually produced by
`runNetworkDiagnostics` the fallback suggestion is never emitted — whenever
the status is not success, the unreachable rule or the port-closed rule has
already fired. -/
theorem fallback_suggestion_never_emitted
    (serverIp : Str) (pingSuccess : Bool) (pingOutput : Str)
    (portCheck : Bool) (traceResults : Str) (internetCheck : Bool) (cameraIp : Str) :
    msgFallback ∉ getConnectionSuggestions
      (runNetworkDiagnostics serverIp pingSuccess pingOutput portCheck traceResults internetCheck)
      cameraIp := by
  rw [getConnectionSuggestions_canonical]
  cases pingSuccess <;> cases portCheck <;> cases internetCheck <;>
    cases h : areOnSameNetwork serverIp cameraIp <;>
      simp [runNetworkDiagnostics, h] <;> decide

/-- C9: whenever the parse regex matches with the port group absent, the
returned `port` field is the default `"554"`. -/
theorem parseRtspUrl_default_port (u : Str) (m : RawMatch)
    (h : rtspScan u = some m) (hp : m.portG = none) :
    (parseRtspUrl u).port = some "554".data := by
  simp [parseRtspUrl, h, hp]

/-- Witness for `parseRtspUrl_default_port` at `rtsp://cam/live`. -/
theorem parseRtspUrl_default_port_witness :
    (parseRtspUrl "rtsp://cam/live".data).port = some "554".data :=
  parseRtspUrl_default_port "rtsp://cam/live".data
    ⟨none, none, "cam".data, none, some "live".data⟩ (by decide) (by decide)

/-- The multiple-'@' URL of the claimed parse scenario. -/
def multiAtUrl : Str := "rtsp://user:pa@ss@192.168.1.50:554/live/ch00_0".data

/-- C3 counterexample: on the claimed input the parser does not yield host
`192.168.1.50` with password `pa@ss` — the credential/host boundary is not
the last '@'. -/
theorem parseRtspUrl_multi_at_cex :
    ¬((parseRtspUrl multiAtUrl).ip = some "192.168.1.50".data
      ∧ (parseRtspUrl multiAtUrl).password = some "pa@ss".data) := by decide

/-- C3 amended: `parseRtspUrl` cuts the credentials at the first ':' and
the first '@' after the scheme, so the example parses to username `user`,
password `pa`, host/ip `ss@192.168.1.50`, port `554`, path `live/ch00_0`. -/
theorem parseRtspUrl_multi_at_first_boundary :
    parseRtspUrl multiAtUrl =
      ⟨some "user".data, some "pa".data, some "ss@192.168.1.50".data,
       some "ss@192.168.1.50".data, some "554".data, some "live/ch00_0".data⟩ := by decide

/-- A valid RTSP URL whose username contains '@': the mask stops at the
first '@', leaving the password in clear. -/
def leakUrl : Str := "rtsp://a@b:secret@h/path".data

/-- C2 counterexample: `leakUrl` passes `isValidRtspUrl`, its parsed
password is `secret`, and yet the masked URL still contains `secret` as a
substring. -/
theorem maskRtspUrl_leaks_password_cex :
    isValidRtspUrl leakUrl = true
    ∧ (parseRtspUrl leakUrl).password = some "secret".data
    ∧ containsSub "secret".data (maskRtspUrl leakUrl) = true := by decide

/-- Unfolding step of `spanB` on a character accepted by the class. -/
theorem spanB_pos {p : Char → Bool} {c : Char} (cs : List Char) (h : p c = true) :
    spanB p (c :: cs) = (c :: (spanB p cs).1, (spanB p cs).2) := by simp [spanB, h]

/-- Unfolding step of `spanB` on a character rejected by the class. -/
theorem spanB_neg {p : Char → Bool} {c : Char} (cs : List Char) (h : p c = false) :
    spanB p (c :: cs) = ([], c :: cs) := by simp [spanB, h]

/-- The greedy `[^@]+` class stops exactly at the first '@'. -/
theorem spanB_noat_snd (t : List Char) (h : '@' ∈ t) :
    (spanB (fun c => !(c == '@')) t).2 = '@' :: afterFirstAt t := by
  induction t with
  | nil => cases h
  | cons c cs ih =>
    by_cases hc : c = '@'
    · subst hc; simp [spanB, afterFirstAt]
    · have hb : (c == '@') = false := by simp [hc]
      have hm : '@' ∈ cs := by
        rcases List.mem_cons.mp h with h1 | h1
        · exact absurd h1.symm hc
        · exact h1
      simp [spanB, afterFirstAt, hb, ih hm]

/-- On a string of the form `rtsp://…` containing an '@', the mask pattern
matches at position 0 with first group `rtsp`, consuming through the first
'@' of the string. -/
theorem matchHere_rtsp (t : List Char) (h : '@' ∈ t) :
    matchHere ('r' :: 't' :: 's' :: 'p' :: ':' :: '/' :: '/' :: t)
      = some (['r', 't', 's', 'p'], afterFirstAt t) := by
  have h2 : '@' ∈ '/' :: '/' :: t := by simp [h]
  have e1 : spanB isWordChar ('r' :: 't' :: 's' :: 'p' :: ':' :: '/' :: '/' :: t)
      = (['r', 't', 's', 'p'], ':' :: '/' :: '/' :: t) := by
    rw [spanB_pos _ (by decide), spanB_pos _ (by decide), spanB_pos _ (by decide),
        spanB_pos _ (by decide), spanB_neg _ (by decide)]
  have e2 : (spanB (fun c => !(c == '@')) ('/' :: '/' :: t)).2 = '@' :: afterFirstAt t := by
    rw [spanB_noat_snd _ h2]
    simp [afterFirstAt]
  have e3 : (spanB (fun c => !(c == '@')) ('/' :: '/' :: t)).1
      = '/' :: '/' :: (spanB (fun c => !(c == '@')) t).1 := by
    rw [spanB_pos _ (by decide), spanB_pos _ (by decide)]
  simp [matchHere, e1, e2, e3]

/-- C2 amended: on every valid RTSP URL containing an '@', `maskRtspUrl`
replaces exactly the span from the scheme name through the *first* '@' with
the redaction token, so the result is `rtsp:******@` followed by the URL's
suffix after its first '@'.  Password text situated after the first '@'
(as in `leakUrl`) therefore survives masking. -/
theorem maskRtspUrl_redacts (u : Str) (hv : isValidRtspUrl u = true) (ha : '@' ∈ u) :
    maskRtspUrl u = "rtsp:******@".data ++ afterFirstAt u := by
  unfold isValidRtspUrl at hv
  split at hv
  next t =>
    have hat : '@' ∈ t := by simpa using ha
    rw [maskRtspUrl]
    rw [matchHere_rtsp t hat]
    simp [afterFirstAt]
  next => exact absurd hv (by simp)

/-- Witness for `maskRtspUrl_redacts` at `rtsp://user:pw@cam/live`. -/
theorem maskRtspUrl_redacts_witness :
    maskRtspUrl "rtsp://user:pw@cam/live".data
      = "rtsp:******@".data ++ afterFirstAt "rtsp://user:pw@cam/live".data :=
  maskRtspUrl_redacts "rtsp://user:pw@cam/live".data (by decide) (by decide)

/-- C5 counterexample: a socket whose connection attempt errors is resolved
`false` exactly once, but the socket is *not* destroyed on this path — only
the connect and timeout handlers call `socket.destroy()`. -/
theorem isPortOpen_error_path_no_destroy_cex :
    (isPortOpenRun [SockEvent.error]).resolutions = [false]
    ∧ (isPortOpenRun [SockEvent.error]).destroyed = false := by decide

/-- Once `resolved` is set, later error/timeout events leave the probe
state untouched (both handlers are guarded by the flag). -/
theorem foldl_resolved_fixed (rest : List SockEvent) (st : ProbeState)
    (hr : st.resolved = true)
    (hc : rest.all (fun e => !(e == SockEvent.connect)) = true) :
    rest.foldl isPortOpenStep st = st := by
  induction rest generalizing st with
  | nil => rfl
  | cons e es ih =>
    simp only [List.all_cons, Bool.and_eq_true] at hc
    cases e with
    | connect => simp at hc
    | error =>
      have : isPortOpenStep st SockEvent.error = st := by simp [isPortOpenStep, hr]
      simp [List.foldl, this, ih st hr hc.2]
    | timeout =>
      have : isPortOpenStep st SockEvent.timeout = st := by simp [isPortOpenStep, hr]
      simp [List.foldl, this, ih st hr hc.2]

/-- C5 amended: over every admissible socket event sequence, `isPortOpen`
resolves at most once (exactly once as soon as any event arrives), `true`
precisely on connect and `false` on error or timeout; the socket is
destroyed exactly when the first event is connect or timeout — the error
path leaves the socket undestroyed. -/
theorem isPortOpen_single_resolution (evs : List SockEvent)
    (hv : validEvents evs = true) :
    (isPortOpenRun evs).resolutions.length ≤ 1
    ∧ (evs ≠ [] → (isPortOpenRun evs).resolutions.length = 1)
    ∧ (isPortOpenRun evs).destroyed =
        (evs.head? == some SockEvent.connect || evs.head? == some SockEvent.timeout)
    ∧ (evs.head? = some SockEvent.connect → (isPortOpenRun evs).resolutions = [true])
    ∧ (∀ e, evs.head? = some e → e ≠ SockEvent.connect →
        (isPortOpenRun evs).resolutions = [false]) := by
  cases evs with
  | nil => simp [isPortOpenRun, probeInit]
  | cons e rest =>
    cases e with
    | connect =>
      have hr : rest = [] := by
        simpa [validEvents, List.isEmpty_iff] using hv
      subst hr
      refine ⟨by decide, fun _ => by decide, by decide, fun _ => by decide, ?_⟩
      intro e he hne
      simp at he
      exact absurd he.symm hne
    | timeout =>
      have hr : rest = [] := by
        simpa [validEvents, List.isEmpty_iff] using hv
      subst hr
      refine ⟨by decide, fun _ => by decide, by decide, by decide, ?_⟩
      intro e he hne
      simp at he
      subst he
      decide
    | error =>
      have hc : rest.all (fun e => !(e == SockEvent.connect)) = true := by
        simpa [validEvents] using hv
      have hrun : isPortOpenRun (SockEvent.error :: rest) = ⟨true, false, [false]⟩ := by
        have h1 : isPortOpenStep probeInit SockEvent.error = ⟨true, false, [false]⟩ := by decide
        simp only [isPortOpenRun, List.foldl, h1]
        exact foldl_resolved_fixed rest ⟨true, false, [false]⟩ rfl hc
      rw [hrun]
      refine ⟨by decide, fun _ => by decide, by simp, ?_, ?_⟩
      · intro he; simp at he
      · intro e he hne
        simp at he
        subst he
        decide

/-- Witness for `isPortOpen_single_resolution` at the event sequence
consisting of a single successful connect. -/
theorem isPortOpen_single_resolution_witness :
    (isPortOpenRun [SockEvent.connect]).resolutions.length ≤ 1
    ∧ (([SockEvent.connect] : List SockEvent) ≠ [] →
        (isPortOpenRun [SockEvent.connect]).resolutions.length = 1)
    ∧ (isPortOpenRun [SockEvent.connect]).destroyed =
        (([SockEvent.connect] : List SockEvent).head? == some SockEvent.connect
          || ([SockEvent.connect] : List SockEvent).head? == some SockEvent.timeout)
    ∧ (([SockEvent.connect] : List SockEvent).head? = some SockEvent.connect →
        (isPortOpenRun [SockEvent.connect]).resolutions = [true])
    ∧ (∀ e, ([SockEvent.connect] : List SockEvent).head? = some e →
        e ≠ SockEvent.connect → (isPortOpenRun [SockEvent.connect]).resolutions = [false]) :=
  isPortOpen_single_resolution [SockEvent.connect] (by decide)

/-- The source URL used in the relay scenarios. -/
def relayUrl : Str := "rtsp://user:pw@192.168.1.50:554/live/ch00_0".data

/-- State after two concurrent `setupRtspStream(relayUrl)` calls have both
executed their first segment — both passed the `activeStreams.has` check
before either reached its insertion, the interleaving Node permits at the
`await server.listen` suspension point. -/
def c1AfterChecks : RelayState :=
  (setupPhase1 relayUrl ((setupPhase1 relayUrl initRelay).1)).1

/-- State after both calls then resumed and executed their second segment. -/
def c1Final : RelayState :=
  (setupPhase2 relayUrl 10002 ((setupPhase2 relayUrl 10001 c1AfterChecks).1)).1

/-- C1: sequential re-acquisition deduplicates (one spawn, the cached
endpoint returned), but two concurrent acquisitions for the same URL can
both pass the `has` check before either inserts — the `await` between
check and insert makes the insert-or-return non-atomic — and then *two*
ffmpeg processes are spawned, the second registration overwriting the
first, whose process is never killed. -/
theorem setupRtspStream_concurrent_acquire_double_spawn :
    ((setupRtspStream relayUrl 10002 (setupRtspStream relayUrl 10001 initRelay).1).1.spawned = [0]
      ∧ (setupRtspStream relayUrl 10002 (setupRtspStream relayUrl 10001 initRelay).1).2 = 10001)
    ∧ (setupPhase1 relayUrl initRelay).2 = SetupResult.proceed
    ∧ (setupPhase1 relayUrl ((setupPhase1 relayUrl initRelay).1)).2 = SetupResult.proceed
    ∧ c1Final.spawned = [0, 1]
    ∧ mapGet c1Final.activeStreams (streamId relayUrl) = some ⟨1, [], false⟩
    ∧ 0 ∉ c1Final.killed := by decide

/-- State after a stream with three attached viewers suffers an ffmpeg
exit: the `close` handler of instance 0 has run. -/
def c6Crashed : RelayState :=
  onFfmpegClose relayUrl 0
    (onWsConnection relayUrl 3 (onWsConnection relayUrl 2 (onWsConnection relayUrl 1
      ((setupRtspStream relayUrl 12345 initRelay).1))))

/-- C6: after the subprocess-exit handler runs, the registry entry is
removed, the ws/http servers are closed, and a subsequent connect spawns a
brand-new subprocess — but the stored port mapping is left behind and none
of the three attached viewer connections is closed (only `disconnectStream`
does either). -/
theorem onFfmpegClose_leaves_port_and_clients :
    mapGet c6Crashed.activeStreams (streamId relayUrl) = none
    ∧ c6Crashed.closedWs = [0]
    ∧ c6Crashed.closedHttp = [0]
    ∧ (setupRtspStream relayUrl 13000 c6Crashed).1.spawned = [0, 1]
    ∧ mapGet c6Crashed.streamPorts (streamId relayUrl) = some 12345
    ∧ c6Crashed.closedClients = [] := by decide

/-- State in which the sole viewer has detached, arming the 60-second
disconnect timer. -/
def c7Armed : RelayState :=
  onWsClientClose relayUrl 1 (onWsConnection relayUrl 1
    ((setupRtspStream relayUrl 12000 initRelay).1))

/-- `c7Armed` after a second viewer attached through the fan-out channel
without a fresh acquire: membership is 1 yet the timer is still armed. -/
def c7Reattached : RelayState := onWsConnection relayUrl 2 c7Armed

/-- C7 counterexample: the armed countdown fires while one viewer is
attached and still tears the stream down — `disconnectStream` closes the
viewer and kills the process without re-checking membership, so the fired
countdown does not tear down "only when membership is still zero". -/
theorem idle_timeout_fires_with_viewer_cex :
    mapGet c7Reattached.activeStreams (streamId relayUrl) = some ⟨0, [2], true⟩
    ∧ mapGet (fireIdleTimeout relayUrl c7Reattached).activeStreams (streamId relayUrl) = none
    ∧ (fireIdleTimeout relayUrl c7Reattached).closedClients = [2]
    ∧ (fireIdleTimeout relayUrl c7Reattached).killed = [0] := by decide

/-- Looking up a key just set in the registry map yields the new value. -/
theorem mapGet_mapSet_self (m : List (Str × α)) (k : Str) (v : α) :
    mapGet (mapSet m k v) k = some v := by
  induction m with
  | nil => simp [mapSet, mapGet]
  | cons p rest ih =>
    rcases p with ⟨k', v'⟩
    by_cases h : k' = k
    · simp [mapSet, mapGet, h]
    · simp [mapSet, mapGet, h, ih]

/-- C7 amended: a new acquire for a registered source cancels the pending
idle-teardown timer and reuses the stream — no new subprocess is spawned,
the entry (and its membership) survives with the timer cleared, and the
stored endpoint port is returned; the fired countdown, by contrast, tears
the stream down unconditionally, killing the process and closing whatever
viewers are attached at that moment. -/
theorem reacquire_cancels_idle_teardown (st : RelayState) (u : Str)
    (info : StreamInfoM) (port : Nat)
    (h : mapGet st.activeStreams (streamId u) = some info) :
    (setupRtspStream u port st).1.spawned = st.spawned
    ∧ mapGet (setupRtspStream u port st).1.activeStreams (streamId u)
        = some { info with timerArmed := false }
    ∧ (setupRtspStream u port st).2 = (mapGet st.streamPorts (streamId u)).getD 0
    ∧ (fireIdleTimeout u st).killed = st.killed ++ [info.inst]
    ∧ (fireIdleTimeout u st).closedClients = st.closedClients ++ info.clients := by
  simp [setupRtspStream, setupPhase1, h, mapGet_mapSet_self,
        fireIdleTimeout, disconnectStream]

/-- Witness for `reacquire_cancels_idle_teardown` at the armed state. -/
theorem reacquire_cancels_idle_teardown_witness :
    (setupRtspStream relayUrl 15000 c7Armed).1.spawned = c7Armed.spawned
    ∧ mapGet (setupRtspStream relayUrl 15000 c7Armed).1.activeStreams (streamId relayUrl)
        = some ⟨0, [], false⟩
    ∧ (setupRtspStream relayUrl 15000 c7Armed).2
        = (mapGet c7Armed.streamPorts (streamId relayUrl)).getD 0
    ∧ (fireIdleTimeout relayUrl c7Armed).killed = c7Armed.killed ++ [0]
    ∧ (fireIdleTimeout relayUrl c7Armed).closedClients = c7Armed.closedClients ++ [] :=
  reacquire_cancels_idle_teardown c7Armed relayUrl ⟨0, [], true⟩ 15000 (by decide)
